import Mathlib

/-!
Verification development for the release build pipeline of
`build-scripts/build.py` (amazon-q-developer-cli).

The script is straight-line Python that shells out to external tools.  We
embed it shallowly as follows:

* a file system `FS` maps a path to the content stored there (`none` =
  absent).  Directory trees copied wholesale (`shutil.copytree`) are
  represented by a single entry keyed by the tree's root path.
* each side-effecting statement of the script becomes an `Instr`; a Python
  function body becomes the `List Instr` it executes, in source order.
* `exec` interprets a program over an `FS`, given an oracle `ok` that
  states which external invocations (`run_cmd`, signing, notarization,
  rebundling) succeed.  A failing invocation raises, i.e. aborts the
  program at that instruction, exactly like an uncaught Python exception;
  there is no try/finally anywhere in the source.  File effects of
  external commands on paths other than the ones the script itself
  manages are not tracked; claims about those contents are settled by
  separate direct functional models below.
* small pure helpers (`generate_sha`, the Info.plist patch, the
  configuration-blob parse) are additionally embedded as direct Lean
  functions so their input/output contracts can be stated exactly.

`util.py` and `signing.py` are not part of the sources at hand; the few
facts needed from them (`run_cmd` raises on non-zero exit, `util.n`
truthiness of an optional JSON key, the signing client operations) are
modelled from the spec and marked as such in their doc comments.
-/

/-- A file system: path to content, `none` when the path does not exist. -/
def FS : Type := String → Option String

/-- Write (create or overwrite) `p` with content `c`. -/
def FS.write (fs : FS) (p c : String) : FS :=
  fun q => if q = p then some c else fs q

/-- Remove `p` (no error when absent, matching `unlink(missing_ok=True)`
and `rmtree(ignore_errors=True)`, the only forms the script uses). -/
def FS.remove (fs : FS) (p : String) : FS :=
  fun q => if q = p then none else fs q

/-- The empty file system. -/
def emptyFS : FS := fun _ => none

/-- A file system in which every path exists (used to exercise runs in
which every `shutil.copy2`/`copytree` source is present). -/
def fullFS : FS := fun _ => some "input"

/-- Modelled from the spec: `signing.SigningType`, the closed artifact-kind
set submitted to the signing service ("helper-bundle, app, disk-image");
`signing.py` is not among the sources at hand. -/
inductive SigningType where
  | app
  | dmg
  | ime
deriving DecidableEq

/-- One side-effecting statement of `build.py`.  `signFile`,
`notarizeFile` and `rebundleDmg` are the operations of `signing.py`
(modelled from the spec: blocking round-trips against the external
signing/notarization service, plus the disk-image rebuild). -/
inductive Instr where
  | writeFile (path content : String)
  | unlink (path : String)
  | runCmd (cmd : List String)
  | copy (src dst : String)
  | copyTree (src dst : String)
  | rmTree (path : String)
  | mkdirP (path : String)
  | genSha (path : String)
  | signFile (path : String) (kind : SigningType)
  | notarizeFile (path : String)
  | rebundleDmg (app dmg : String)
  | raiseError (msg : String)
deriving DecidableEq

/-- The file-system effect of an instruction (the effect is the same
whether or not the corresponding external call then fails: a failing
`run_cmd` leaves the script's own files exactly as they were). -/
def applyInstr (i : Instr) (fs : FS) : FS :=
  match i with
  | .writeFile p c => fs.write p c
  | .unlink p => fs.remove p
  | .rmTree p => fs.remove p
  | .copy src dst =>
    match fs src with
    | some c => fs.write dst c
    | none => fs
  | .copyTree src dst =>
    match fs src with
    | some c => fs.write dst c
    | none => fs
  | .genSha p =>
    match fs p with
    | some c => fs.write (p ++ ".sha256") ("sha256 of " ++ c)
    | none => fs
  | .runCmd _ => fs
  | .mkdirP _ => fs
  | .signFile _ _ => fs
  | .notarizeFile _ => fs
  | .rebundleDmg _ _ => fs
  | .raiseError _ => fs

/-- Whether an instruction raises, given the success oracle `ok` for
external invocations.  `copy`/`copyTree` raise when the source is
missing (`shutil` does); `mkdir(parents=True, exist_ok=True)` and the
`missing_ok`/`ignore_errors` removals never raise. -/
def execErr (ok : Instr → Bool) (fs : FS) : Instr → Option String
  | .runCmd c => if ok (.runCmd c) then none else some "external command failed"
  | .copy src _ =>
    match fs src with
    | some _ => none
    | none => some "copy: no such file"
  | .copyTree src _ =>
    match fs src with
    | some _ => none
    | none => some "copytree: no such directory"
  | .genSha p =>
    match fs p with
    | some _ => none
    | none => some "shasum: no such file"
  | .signFile p k => if ok (.signFile p k) then none else some "signing failed"
  | .notarizeFile p => if ok (.notarizeFile p) then none else some "notarization failed"
  | .rebundleDmg a d => if ok (.rebundleDmg a d) then none else some "rebundle failed"
  | .raiseError m => some m
  | .writeFile _ _ => none
  | .unlink _ => none
  | .rmTree _ => none
  | .mkdirP _ => none

/-- Result of running a program: final file system, the instructions that
actually executed (in order, including a failing one), and the error that
aborted the run, if any. -/
structure ExecResult where
  fs : FS
  trace : List Instr
  error : Option String

/-- Run a program: execute instructions in order, aborting at the first
one that raises (an uncaught Python exception terminates the script). -/
def exec (ok : Instr → Bool) : List Instr → FS → ExecResult
  | [], fs => { fs := fs, trace := [], error := none }
  | i :: rest, fs =>
    match execErr ok fs i with
    | none =>
      let r := exec ok rest (applyInstr i fs)
      { fs := r.fs, trace := i :: r.trace, error := r.error }
    | some e => { fs := applyInstr i fs, trace := [i], error := some e }

/-- Boolean prefix test on character lists. -/
def isPrefixB : List Char → List Char → Bool
  | [], _ => true
  | _ :: _, [] => false
  | a :: as, b :: bs => a = b && isPrefixB as bs

/-- Predicate `pathPrefix d p`: `d` is a string prefix of `p` (used to
over-approximate which paths a tree-level operation may affect). -/
def pathPrefix (d p : String) : Bool := isPrefixB d.data p.data

/-- Over-approximation of the set of paths an instruction may create,
modify or delete.  Tree-level operations (`rmtree`, `copytree` target,
signing rewriting an artifact in place, rebundling rewriting the image)
are counted at every path under their root. -/
def touches : Instr → String → Bool
  | .writeFile q _, p => p = q
  | .unlink q, p => p = q
  | .rmTree q, p => pathPrefix q p
  | .copy _ dst, p => p = dst
  | .copyTree _ dst, p => pathPrefix dst p
  | .mkdirP _, _ => false
  | .genSha q, p => p = q ++ ".sha256"
  | .runCmd _, _ => false
  | .signFile q _, p => pathPrefix q p
  | .notarizeFile q, p => pathPrefix q p
  | .rebundleDmg _ d, p => pathPrefix d p
  | .raiseError _, _ => false

/-- Oracle under which every external invocation succeeds. -/
def okAll : Instr → Bool := fun _ => true

/-! ## Paths and external command lines (from `build.py`, `OUTDIR = "build"`) -/

/-- Constant `OUTDIR`: the fixed output staging directory. -/
def OUTDIR : String := "build"

/-- Path `fig_desktop/manifest.json`, the transient bundle manifest. -/
def manifest_path : String := "fig_desktop/manifest.json"

/-- Path `fig_desktop/build-config.json`, the transient tauri packaging config. -/
def tauri_config_path : String := "fig_desktop/build-config.json"

/-- Path `bundle/dmg/spec.json`, the transient disk-image layout spec. -/
def dmg_spec_path : String := "bundle/dmg/spec.json"

/-- The assembled app bundle, `OUTDIR / "CodeWhisperer.app"`. -/
def app_bundle_path : String := "build/CodeWhisperer.app"

/-- The disk image, `OUTDIR / "CodeWhisperer.dmg"`. -/
def dmg_path : String := "build/CodeWhisperer.dmg"

/-- The helper input-method bundle, `build/CodeWhispererInputMethod.app`. -/
def ime_app_path : String := "build/CodeWhispererInputMethod.app"

/-- Its `Contents/Info.plist`. -/
def info_plist_path : String := "build/CodeWhisperer.app/Contents/Info.plist"

/-- The target triples declared for macOS builds. -/
def darwinTargets : List String := ["x86_64-apple-darwin", "aarch64-apple-darwin"]

/-- The single target triple declared for Linux builds. -/
def linuxTargets : List String := ["x86_64-unknown-linux-gnu"]

/-- Feature arguments: Python appends them only when the sequence is
truthy, i.e. non-`None` and non-empty. -/
def featureArgs : Option (List String) → List String
  | none => []
  | some [] => []
  | some fs => ["--features", String.intercalate "," fs]

/-- The single `cargo build` invocation covering every declared target. -/
def cargo_build_cmd (package : String) (targets : List String)
    (features : Option (List String)) : List String :=
  ["cargo", "build", "--release", "--locked", "--package", package]
    ++ targets.flatMap (fun t => ["--target", t])
    ++ featureArgs features

/-- Per-architecture output the toolchain leaves at
`target/<triple>/release/<package>`. -/
def constituent (t package : String) : String :=
  "target/" ++ t ++ "/release/" ++ package

/-- The `lipo -create -output <out> <inputs>` fat-binary merge command. -/
def lipo_cmd (out : String) (inputs : List String) : List String :=
  ["lipo", "-create", "-output", out] ++ inputs

/-- Command `cargo metadata --format-version 1 --no-deps` (used by `gen_manifest`
and by `version`). -/
def cargo_metadata_cmd : List String :=
  ["cargo", "metadata", "--format-version", "1", "--no-deps"]

/-- The `cargo test` invocation of `run_cargo_tests`. -/
def cargo_test_cmd (features : Option (List String)) : List String :=
  ["cargo", "test", "--release", "--locked"] ++ featureArgs features

/-- The `cargo-tauri build` invocation (run with cwd `fig_desktop`). -/
def cargo_tauri_cmd (features : Option (List String)) : List String :=
  ["cargo-tauri", "build", "--config", "build-config.json",
   "--target", "universal-apple-darwin"] ++ featureArgs features

/-- The `pnpm appdmg <spec> <dmg>` disk-image invocation. -/
def appdmg_cmd : List String := ["pnpm", "appdmg", dmg_spec_path, dmg_path]

/-- Stand-in for the dynamic `gen_manifest()` JSON (timestamp, version and
channel are computed at build time; no claim inspects this content). -/
def manifest_content : String := "generated manifest json"

/-- Stand-in for the `tauri_config(...)` JSON written to the packaging
config (no claim inspects this content). -/
def tauri_config_content : String := "tauri build config json"

/-- Stand-in for the dmg layout spec JSON (no claim inspects it). -/
def dmg_spec_content : String := "dmg layout spec json"

/-- Stand-in for the `CFBundleURLTypes` XML array passed to
`plutil -insert` (registers the codewhisperer URL scheme). -/
def url_types_xml : String :=
  "xml array: CFBundleURLName com.amazon.codewhisperer, scheme codewhisperer"

/-! ## Programs: one `List Instr` per `build.py` function, in source order -/

/-- Function `build_npm_packages`: pnpm install/build, then copy the two built
asset trees into the staging directory. -/
def build_npm_packages : List Instr :=
  [ .runCmd ["pnpm", "install", "--frozen-lockfile"],
    .runCmd ["pnpm", "build"],
    .rmTree "build/dashboard",
    .copyTree "apps/dashboard/dist" "build/dashboard",
    .rmTree "build/autocomplete",
    .copyTree "apps/autocomplete/dist" "build/autocomplete" ]

/-- Function `run_cargo_tests`: the test gate is a single `cargo test` run. -/
def run_cargo_tests (features : Option (List String)) : List Instr :=
  [ .runCmd (cargo_test_cmd features) ]

inductive Platform where
  | darwin
  | linux
  | other
deriving DecidableEq

/-- Function `build_cargo_bin`, as the instruction sequence it executes: on a
platform that is neither macOS nor Linux it raises `ValueError` before
anything else; on macOS it runs one cargo build over both targets and
then the lipo merge; on Linux it copies the single-target output into the
staging directory. -/
def build_cargo_bin_instrs (platform : Platform) (package : String)
    (output_name : Option String) (features : Option (List String)) : List Instr :=
  match platform with
  | .other => [ .raiseError "Unsupported platform" ]
  | .darwin =>
    [ .runCmd (cargo_build_cmd package darwinTargets features),
      .runCmd (lipo_cmd ("build/" ++ output_name.getD package ++ "-universal-apple-darwin")
        (darwinTargets.map (fun t => constituent t package))) ]
  | .linux =>
    [ .runCmd (cargo_build_cmd package linuxTargets features),
      .copy (constituent "x86_64-unknown-linux-gnu" package)
        ("build/" ++ output_name.getD package) ]

/-- Function `build_macos_ime`: build `fig_input_method`, lay out the helper
bundle, and (only when signing data was supplied) sign and notarize it. -/
def build_macos_ime (signing : Bool) : List Instr :=
  build_cargo_bin_instrs .darwin "fig_input_method" none none
  ++ [ .mkdirP (ime_app_path ++ "/Contents/MacOS"),
       .copy "build/fig_input_method-universal-apple-darwin"
         (ime_app_path ++ "/Contents/MacOS/fig_input_method"),
       .copy "fig_input_method/Info.plist" (ime_app_path ++ "/Contents/Info.plist"),
       .copyTree "fig_input_method/resources" (ime_app_path ++ "/Contents/Resources") ]
  ++ (if signing then [ .signFile ime_app_path .ime, .notarizeFile ime_app_path ] else [])

/-- Function `sign_and_rebundle_macos`: sign the app, notarize the app, rebundle
the dmg from the signed app, sign the dmg, notarize the dmg. -/
def sign_and_rebundle_macos (app dmg : String) : List Instr :=
  [ .signFile app .app,
    .notarizeFile app,
    .rebundleDmg app dmg,
    .signFile dmg .dmg,
    .notarizeFile dmg ]

/-- Function `build_desktop_app`: the macOS bundle-assembly stage.  Source order:
build the ime helper; write the transient manifest and packaging config
(`gen_manifest` first runs `cargo metadata` twice); run `cargo-tauri`;
unlink the two transients; copy the produced bundle into staging; patch
Info.plist (three `defaults write`, one `plutil -insert`); embed the
helper bundle; clone and copy themes; copy the two npm asset trees; write
the transient dmg spec; remove any stale dmg; run `appdmg`; unlink the
spec; finally, when signing data was supplied, sign and rebundle. -/
def build_desktop_app (signing : Bool) (features : Option (List String)) : List Instr :=
  build_macos_ime signing
  ++ [ .runCmd cargo_metadata_cmd,
       .runCmd cargo_metadata_cmd,
       .writeFile manifest_path manifest_content,
       .writeFile tauri_config_path tauri_config_content,
       .runCmd (cargo_tauri_cmd features),
       .unlink manifest_path,
       .unlink tauri_config_path,
       .rmTree app_bundle_path,
       .copyTree "target/universal-apple-darwin/release/bundle/macos/codewhisperer_desktop.app"
         app_bundle_path,
       .runCmd ["defaults", "write", info_plist_path, "CFBundleDisplayName", "CodeWhisperer"],
       .runCmd ["defaults", "write", info_plist_path, "CFBundleName", "CodeWhisperer"],
       .runCmd ["defaults", "write", info_plist_path, "LSUIElement", "-bool", "TRUE"],
       .runCmd ["plutil", "-insert", "CFBundleURLTypes", "-xml", url_types_xml, info_plist_path],
       .mkdirP (app_bundle_path ++ "/Contents/Helpers"),
       .copyTree ime_app_path (app_bundle_path ++ "/Contents/Helpers/CodeWhispererInputMethod.app"),
       .rmTree "build/themes",
       .runCmd ["git", "clone", "https://github.com/withfig/themes.git", "build/themes"],
       .copyTree "build/themes/themes" (app_bundle_path ++ "/Contents/Resources/themes"),
       .copyTree "build/dashboard" (app_bundle_path ++ "/Contents/Resources/dashboard"),
       .copyTree "build/autocomplete" (app_bundle_path ++ "/Contents/Resources/autocomplete"),
       .writeFile dmg_spec_path dmg_spec_content,
       .unlink dmg_path,
       .runCmd appdmg_cmd,
       .unlink dmg_spec_path ]
  ++ (if signing then sign_and_rebundle_macos app_bundle_path dmg_path else [])

/-- Icon copy of `linux_bundle` for one resolution. -/
def icon_instr (res : Nat) : Instr :=
  .copy ("fig_desktop/icons/" ++ toString res ++ "x" ++ toString res ++ ".png")
    ("build/usr/share/icons/hicolor/" ++ toString res ++ "x" ++ toString res ++ "/apps/fig.png")

/-- The declared icon resolutions. -/
def icon_resolutions : List Nat := [16, 22, 24, 32, 48, 64, 128, 256, 512]

/-- Function `linux_bundle`: icons (non-headless only); the cli and terminal
binaries into `build/usr/bin` (the copy destination is that directory);
the headless overlay always; the desktop overlay and desktop binary only
when not headless. -/
def linux_bundle (cwterm_path cw_cli_path codewhisperer_desktop_path : String)
    (is_headless : Bool) : List Instr :=
  (if is_headless then [] else icon_resolutions.map icon_instr)
  ++ [ .mkdirP "build/usr/bin",
       .copy cw_cli_path "build/usr/bin",
       .copy cwterm_path "build/usr/bin",
       .copyTree "bundle/linux/headless" "build" ]
  ++ (if is_headless then []
      else [ .copyTree "bundle/linux/desktop" "build",
             .copy codewhisperer_desktop_path "build/usr/bin" ])

/-! ## Module entrypoint (lines 410-479 of `build.py`) -/

/-- The JSON configuration blob, as the partial map of the keys it
supplies.  A key absent from the list is absent from the blob. -/
def Config : Type := List (String × String)

/-- Modelled from the spec: `util.n` (not among the sources at hand) —
truthiness of an optional key of the configuration blob; an omitted key
is falsy, so the stage guarded by it is disabled rather than erroring. -/
def n (args : Config) (key : String) : Bool :=
  (args.lookup key).isSome

/-- Python subscript `build_args[key]`: raises `KeyError` when absent. -/
def getItem (args : Config) (key : String) : Except String String :=
  match args.lookup key with
  | some v => .ok v
  | none => .error ("KeyError: " ++ key)

/-- Modelled from the spec: `signing.SigningData` — the signing
credential/queue/bucket references handed to the signing client. -/
structure SigningData where
  bucket_name : String
  aws_account_id : String
  notarizing_secret_id : String
  signing_request_queue_name : String
  signing_role_name : String
deriving DecidableEq

/-- Lines 412-425: `signing_data` is constructed iff `signing_bucket`,
`signing_queue` and `apple_id_secret` are all truthy; the construction
then subscripts `aws_account_id` and `signing_role_name` directly
(keyword arguments evaluate in source order). -/
def parse_signing_data (args : Config) : Except String (Option SigningData) :=
  if n args "signing_bucket" && n args "signing_queue" && n args "apple_id_secret" then do
    let bucket ← getItem args "signing_bucket"
    let account ← getItem args "aws_account_id"
    let secret ← getItem args "apple_id_secret"
    let queue ← getItem args "signing_queue"
    let role ← getItem args "signing_role_name"
    pure (some { bucket_name := bucket, aws_account_id := account,
                 notarizing_secret_id := secret, signing_request_queue_name := queue,
                 signing_role_name := role })
  else
    pure none

/-- Lines 427-430: the optional "gamma" extra-feature toggle. -/
def features_of (args : Config) : Option (List String) :=
  if n args "gamma" then some ["gamma"] else none

/-- Lines 461/468: the optional output bucket. -/
def output_bucket_of (args : Config) : Option String :=
  if n args "output_bucket" then args.lookup "output_bucket" else none

/-- Command `aws s3 cp <path> s3://<bucket>/staging/`. -/
def aws_cp_cmd (path bucket : String) : List String :=
  ["aws", "s3", "cp", path, "s3://" ++ bucket ++ "/staging/"]

/-- The conditional upload tail on macOS: the disk image and its
checksum sidecar, only when an output bucket was configured. -/
def darwin_upload_instrs : Option String → List Instr
  | some b => [ .runCmd (aws_cp_cmd dmg_path b),
                .runCmd (aws_cp_cmd (dmg_path ++ ".sha256") b) ]
  | none => []

/-- The conditional upload tail on Linux: the two binaries, only when an
output bucket was configured. -/
def linux_upload_instrs : Option String → List Instr
  | some b => [ .runCmd (aws_cp_cmd "build/cw" b),
                .runCmd (aws_cp_cmd "build/cwterm" b) ]
  | none => []

/-- The instruction sequence of the module entrypoint after configuration
parsing: create the staging directory (`mkdir(parents=True,
exist_ok=True)` — no clearing), build npm packages, run the test gate,
build the cli and terminal binaries, then the per-platform tail
(macOS: desktop app, checksum, optional upload of dmg and sidecar;
Linux: optional upload of the two binaries; the Linux desktop build is
commented out in the source). -/
def pipeline_instrs (platform : Platform) (signing : Bool)
    (features : Option (List String)) (output_bucket : Option String) : List Instr :=
  [ .mkdirP "build" ]
  ++ build_npm_packages
  ++ run_cargo_tests features
  ++ build_cargo_bin_instrs platform "cw_cli" (some "cw") features
  ++ build_cargo_bin_instrs platform "figterm" (some "cwterm") features
  ++ (match platform with
      | .darwin =>
        build_desktop_app signing features
        ++ [ .genSha dmg_path ]
        ++ darwin_upload_instrs output_bucket
      | .linux => linux_upload_instrs output_bucket
      | .other => [])

/-- The whole entrypoint: configuration parsing happens first and an
exception there (e.g. `KeyError`) aborts before any stage runs. -/
def module_entrypoint (platform : Platform) (args : Config) :
    Except String (List Instr) := do
  let sd ← parse_signing_data args
  pure (pipeline_instrs platform sd.isSome (features_of args) (output_bucket_of args))

/-! ## Direct functional models of the small pure helpers -/

/-- Python `s.split(" ")[0]`: the longest space-free prefix. -/
def split_first (s : String) : String :=
  String.mk (s.data.takeWhile (fun c => !(c = ' ')))

/-- Function `generate_sha`, parameterized by the digest function `sha` the
external `shasum -a 256` implements: its stdout is
`<digest><two spaces><path>`; the script keeps the first space-separated
field, writes it to a sidecar named by appending `.sha256` to the
artifact's name, and returns the sidecar path.  `run_cmd_output` fails
(raises) when the artifact does not exist. -/
def generate_sha (sha : String → String) (fs : FS) (path : String) :
    Option (FS × String) :=
  match fs path with
  | none => none
  | some content =>
    let shasum_output := sha content ++ "  " ++ path
    let digest := split_first shasum_output
    let sidecar := path ++ ".sha256"
    some (fs.write sidecar digest, sidecar)

/-- The `Info.plist` metadata dictionary, keyed by plist key. -/
def Plist : Type := String → Option String

/-- Command `defaults write <plist> <key> <value>`: sets the key, overwriting any
existing value (idempotent set semantics). -/
def defaults_write (key value : String) (p : Plist) : Plist :=
  fun q => if q = key then some value else p q

/-- Command `plutil -insert <key> ... <plist>`: inserts the key, and exits
non-zero when the keypath already exists (documented plutil behavior;
`run_cmd` then raises).  Plist editing is an external primitive, modelled
at this interface. -/
def plutil_insert (key value : String) (p : Plist) : Except String Plist :=
  match p key with
  | some _ => .error (key ++ " already exists")
  | none => .ok (fun q => if q = key then some value else p q)

/-- The three `defaults write` edits of the patch step, in source order:
display name, bundle name, background-agent flag. -/
def defaults_patch (p : Plist) : Plist :=
  defaults_write "LSUIElement" "TRUE"
    (defaults_write "CFBundleName" "CodeWhisperer"
      (defaults_write "CFBundleDisplayName" "CodeWhisperer" p))

/-- The metadata patch step of `build_desktop_app` (lines 263-308), as a
function on the parent bundle's metadata: three `defaults write` edits
followed by the `plutil -insert` of the URL-scheme association. -/
def patch_info_plist (p : Plist) : Except String Plist :=
  plutil_insert "CFBundleURLTypes" url_types_xml (defaults_patch p)

/-- Outcome of one `build_cargo_bin` call: the external commands issued
and either the returned output path or the exception message. -/
structure DriverRun where
  cmds : List (List String)
  result : Except String String

/-- Function `build_cargo_bin` as a function of the platform, whether the cargo
invocation succeeds, and the set `produced` of per-architecture outputs
the toolchain left on disk.  On macOS the `lipo` fat-binary merge fails
when a constituent architecture's output is missing (modelled from the
spec: "merge fails loudly (fatal) if any constituent architecture build
is missing"); on Linux `shutil.copy2` fails likewise when the
single-target output is missing. -/
def build_cargo_bin (platform : Platform) (cargoOk : Bool)
    (produced : String → Bool) (package : String) (output_name : Option String)
    (features : Option (List String)) : DriverRun :=
  match platform with
  | .other => { cmds := [], result := .error "Unsupported platform" }
  | .darwin =>
    let cargoCmd := cargo_build_cmd package darwinTargets features
    if cargoOk then
      let outpath := "build/" ++ output_name.getD package ++ "-universal-apple-darwin"
      let inputs := darwinTargets.map (fun t => constituent t package)
      { cmds := [cargoCmd, lipo_cmd outpath inputs],
        result := if inputs.all produced then .ok outpath
                  else .error "lipo: missing constituent binary" }
    else
      { cmds := [cargoCmd], result := .error "cargo build failed" }
  | .linux =>
    let cargoCmd := cargo_build_cmd package linuxTargets features
    if cargoOk then
      let target_path := constituent "x86_64-unknown-linux-gnu" package
      { cmds := [cargoCmd],
        result := if produced target_path then .ok ("build/" ++ output_name.getD package)
                  else .error "copy2: no such file" }
    else
      { cmds := [cargoCmd], result := .error "cargo build failed" }

/-- The signing-stage operations on the app bundle or the disk image
(the helper-bundle signing of the ime is a different artifact). -/
def isBundleSigningInstr : Instr → Bool
  | .signFile p _ => p == app_bundle_path || p == dmg_path
  | .notarizeFile p => p == app_bundle_path || p == dmg_path
  | .rebundleDmg _ _ => true
  | _ => false

/-! ## Generic facts about the interpreter -/

theorem isPrefixB_refl (l : List Char) : isPrefixB l l = true := by
  induction l with
  | nil => rfl
  | cons a as ih => simp [isPrefixB, ih]

theorem pathPrefix_refl (s : String) : pathPrefix s s = true :=
  isPrefixB_refl s.data

/-- Unfolding `exec` over a non-raising instruction. -/
theorem exec_cons_none (ok : Instr → Bool) (i : Instr) (rest : List Instr) (fs : FS)
    (he : execErr ok fs i = none) :
    exec ok (i :: rest) fs =
      { fs := (exec ok rest (applyInstr i fs)).fs,
        trace := i :: (exec ok rest (applyInstr i fs)).trace,
        error := (exec ok rest (applyInstr i fs)).error } := by
  rw [exec, he]

/-- Unfolding `exec` over a raising instruction. -/
theorem exec_cons_some (ok : Instr → Bool) (i : Instr) (rest : List Instr) (fs : FS)
    (e : String) (he : execErr ok fs i = some e) :
    exec ok (i :: rest) fs =
      { fs := applyInstr i fs, trace := [i], error := some e } := by
  rw [exec, he]

/-- An instruction that does not touch `p` leaves the content at `p`
unchanged. -/
theorem applyInstr_untouched (i : Instr) (p : String) (fs : FS)
    (h : touches i p = false) : applyInstr i fs p = fs p := by
  cases i with
  | writeFile q c =>
    simp only [touches, decide_eq_false_iff_not] at h
    simp [applyInstr, FS.write, h]
  | unlink q =>
    simp only [touches, decide_eq_false_iff_not] at h
    simp [applyInstr, FS.remove, h]
  | rmTree q =>
    have hne : p ≠ q := by
      intro he
      subst he
      simp [touches, pathPrefix_refl] at h
    simp [applyInstr, FS.remove, hne]
  | copy s d =>
    simp only [touches, decide_eq_false_iff_not] at h
    cases hs : fs s <;> simp [applyInstr, hs, FS.write, h]
  | copyTree s d =>
    have hne : p ≠ d := by
      intro he
      subst he
      simp [touches, pathPrefix_refl] at h
    cases hs : fs s <;> simp [applyInstr, hs, FS.write, hne]
  | genSha q =>
    simp only [touches, decide_eq_false_iff_not] at h
    cases hs : fs q <;> simp [applyInstr, hs, FS.write, h]
  | mkdirP q => rfl
  | runCmd c => rfl
  | signFile q k => rfl
  | notarizeFile q => rfl
  | rebundleDmg a d => rfl
  | raiseError m => rfl

/-- Folding the effects of instructions none of which touches `p`
preserves the content at `p`. -/
theorem foldl_untouched (l : List Instr) (p : String) (fs : FS)
    (h : ∀ i ∈ l, touches i p = false) :
    (l.foldl (fun fs i => applyInstr i fs) fs) p = fs p := by
  induction l generalizing fs with
  | nil => rfl
  | cons i rest ih =>
    rw [List.foldl_cons, ih _ (fun j hj => h j (List.mem_cons_of_mem i hj)),
      applyInstr_untouched i p fs (h i (List.mem_cons_self i rest))]

/-- Running a program none of whose instructions touches `p` preserves
the content at `p`, on every exit path. -/
theorem exec_untouched (ok : Instr → Bool) (l : List Instr) (p : String) (fs : FS)
    (h : ∀ i ∈ l, touches i p = false) :
    (exec ok l fs).fs p = fs p := by
  induction l generalizing fs with
  | nil => rfl
  | cons i rest ih =>
    have hi := h i (List.mem_cons_self i rest)
    have hrest := fun j hj => h j (List.mem_cons_of_mem i hj)
    cases he : execErr ok fs i with
    | none =>
      rw [exec_cons_none ok i rest fs he]
      exact (ih (applyInstr i fs) hrest).trans (applyInstr_untouched i p fs hi)
    | some e =>
      rw [exec_cons_some ok i rest fs e he]
      exact applyInstr_untouched i p fs hi

/-- A run that finished without error executed the whole program. -/
theorem exec_trace_of_no_error (ok : Instr → Bool) (l : List Instr) (fs : FS)
    (h : (exec ok l fs).error = none) : (exec ok l fs).trace = l := by
  induction l generalizing fs with
  | nil => rfl
  | cons i rest ih =>
    cases he : execErr ok fs i with
    | none =>
      rw [exec_cons_none ok i rest fs he] at h ⊢
      simpa using ih (applyInstr i fs) (by simpa using h)
    | some e =>
      rw [exec_cons_some ok i rest fs e he] at h
      simp at h

/-- The final file system of a run is the fold of the effects of the
instructions that actually executed. -/
theorem exec_fs_eq_foldl (ok : Instr → Bool) (l : List Instr) (fs : FS) :
    (exec ok l fs).fs = (exec ok l fs).trace.foldl (fun fs i => applyInstr i fs) fs := by
  induction l generalizing fs with
  | nil => rfl
  | cons i rest ih =>
    cases he : execErr ok fs i with
    | none =>
      rw [exec_cons_none ok i rest fs he]
      simpa using ih (applyInstr i fs)
    | some e =>
      rw [exec_cons_some ok i rest fs e he]
      simp

/-- Running an appended program whose first half fails: the run is the
run of the first half. -/
theorem exec_append_of_error (ok : Instr → Bool) (l1 l2 : List Instr) (fs : FS) (e : String)
    (h : (exec ok l1 fs).error = some e) :
    exec ok (l1 ++ l2) fs = exec ok l1 fs := by
  induction l1 generalizing fs with
  | nil => simp [exec] at h
  | cons i rest ih =>
    cases he : execErr ok fs i with
    | none =>
      rw [exec_cons_none ok i rest fs he] at h
      simp only at h
      rw [List.cons_append, exec_cons_none ok i (rest ++ l2) fs he,
        exec_cons_none ok i rest fs he, ih (applyInstr i fs) h]
    | some e2 =>
      rw [List.cons_append, exec_cons_some ok i (rest ++ l2) fs e2 he,
        exec_cons_some ok i rest fs e2 he]

/-- Running an appended program whose first half succeeds: the second
half runs from the first half's final file system, and traces append. -/
theorem exec_append_of_no_error (ok : Instr → Bool) (l1 l2 : List Instr) (fs : FS)
    (h : (exec ok l1 fs).error = none) :
    exec ok (l1 ++ l2) fs =
      { fs := (exec ok l2 (exec ok l1 fs).fs).fs,
        trace := l1 ++ (exec ok l2 (exec ok l1 fs).fs).trace,
        error := (exec ok l2 (exec ok l1 fs).fs).error } := by
  induction l1 generalizing fs with
  | nil => simp [exec]
  | cons i rest ih =>
    cases he : execErr ok fs i with
    | none =>
      rw [exec_cons_none ok i rest fs he] at h
      simp only at h
      rw [List.cons_append, exec_cons_none ok i (rest ++ l2) fs he,
        exec_cons_none ok i rest fs he, ih (applyInstr i fs) h]
      simp
    | some e2 =>
      rw [exec_cons_some ok i rest fs e2 he] at h
      simp at h

/-! ## Claim theorems -/

/-- C10: On a platform that is neither macOS nor Linux, `build_cargo_bin`
raises `ValueError("Unsupported platform")` before invoking any external
toolchain command or writing any output. -/
theorem C10_unsupported_platform_raises (cargoOk : Bool) (produced : String → Bool)
    (package : String) (output_name : Option String) (features : Option (List String))
    (ok : Instr → Bool) (fs : FS) :
    build_cargo_bin .other cargoOk produced package output_name features =
      { cmds := [], result := .error "Unsupported platform" } ∧
    (exec ok (build_cargo_bin_instrs .other package output_name features) fs).error =
      some "Unsupported platform" ∧
    (∀ q, (exec ok (build_cargo_bin_instrs .other package output_name features) fs).fs q = fs q) ∧
    (∀ c, .runCmd c ∉ (exec ok (build_cargo_bin_instrs .other package output_name features) fs).trace) := by
  refine ⟨rfl, rfl, fun q => rfl, fun c hc => ?_⟩
  simp [build_cargo_bin_instrs, exec, execErr] at hc

/-- C7: On macOS the Compilation Driver issues one cargo invocation
covering both declared target triples, merges the per-architecture
outputs with a single `lipo` call whose inputs are exactly the
per-target build outputs, and returns the merged universal binary path;
the merge fails fatally when any constituent architecture's output is
missing; on Linux it returns a copy of the single-target output. -/
theorem C7_universal_binary_merge (produced : String → Bool) (package : String)
    (output_name : Option String) (features : Option (List String)) :
    (build_cargo_bin .darwin true produced package output_name features).cmds =
      [cargo_build_cmd package darwinTargets features,
       lipo_cmd ("build/" ++ output_name.getD package ++ "-universal-apple-darwin")
         (darwinTargets.map (fun t => constituent t package))] ∧
    (∀ t ∈ darwinTargets,
      ["--target", t].Sublist (cargo_build_cmd package darwinTargets features)) ∧
    (build_cargo_bin .darwin true produced package output_name features).result =
      (if (darwinTargets.map (fun t => constituent t package)).all produced then
        .ok ("build/" ++ output_name.getD package ++ "-universal-apple-darwin")
      else .error "lipo: missing constituent binary") ∧
    (build_cargo_bin .linux true produced package output_name features).cmds =
      [cargo_build_cmd package linuxTargets features] ∧
    (build_cargo_bin .linux true produced package output_name features).result =
      (if produced (constituent "x86_64-unknown-linux-gnu" package) then
        .ok ("build/" ++ output_name.getD package)
      else .error "copy2: no such file") := by
  refine ⟨rfl, ?_, rfl, rfl, rfl⟩
  intro t ht
  have hmid : ["--target", t].Sublist
      (darwinTargets.flatMap (fun t => ["--target", t])) := by
    simp only [darwinTargets, List.mem_cons, List.not_mem_nil, or_false] at ht
    rcases ht with rfl | rfl
    · exact List.sublist_append_left _ _
    · exact List.sublist_append_right _ _
  exact (hmid.trans (List.sublist_append_right
      ["cargo", "build", "--release", "--locked", "--package", package] _)).trans
    (List.sublist_append_left _ (featureArgs features))

/-- C1: With a signing configuration supplied, the bundle-assembly stage
performs on the app bundle and disk image exactly the operations
sign(app), notarize(app), rebundle, sign(dmg), notarize(dmg), in that
strict order; on a run that completes, the executed trace contains them
in exactly that order as well. -/
theorem C1_sign_notarize_rebundle_order (features : Option (List String))
    (ok : Instr → Bool) (fs : FS) :
    (build_desktop_app true features).filter isBundleSigningInstr =
      [ .signFile app_bundle_path .app,
        .notarizeFile app_bundle_path,
        .rebundleDmg app_bundle_path dmg_path,
        .signFile dmg_path .dmg,
        .notarizeFile dmg_path ] ∧
    ((exec ok (build_desktop_app true features) fs).error = none →
      (exec ok (build_desktop_app true features) fs).trace.filter isBundleSigningInstr =
        [ .signFile app_bundle_path .app,
          .notarizeFile app_bundle_path,
          .rebundleDmg app_bundle_path dmg_path,
          .signFile dmg_path .dmg,
          .notarizeFile dmg_path ]) := by
  have hime1 : (ime_app_path == app_bundle_path) = false := by decide
  have hime2 : (ime_app_path == dmg_path) = false := by decide
  have happ : (app_bundle_path == app_bundle_path) = true := by decide
  have hdmg : (dmg_path == dmg_path) = true := by decide
  have hfilter : (build_desktop_app true features).filter isBundleSigningInstr =
      [ .signFile app_bundle_path .app,
        .notarizeFile app_bundle_path,
        .rebundleDmg app_bundle_path dmg_path,
        .signFile dmg_path .dmg,
        .notarizeFile dmg_path ] := by
    simp [build_desktop_app, build_macos_ime, build_cargo_bin_instrs,
      sign_and_rebundle_macos, isBundleSigningInstr, List.filter_append,
      hime1, hime2, happ, hdmg]
  refine ⟨hfilter, fun herr => ?_⟩
  rw [exec_trace_of_no_error ok _ fs herr, hfilter]

/-- Witness for C1 at a concrete run in which every external invocation
succeeds and every copy source exists. -/
theorem C1_sign_notarize_rebundle_order_witness :
    (exec okAll (build_desktop_app true none) fullFS).error = none ∧
    (exec okAll (build_desktop_app true none) fullFS).trace.filter isBundleSigningInstr =
      [ .signFile app_bundle_path .app,
        .notarizeFile app_bundle_path,
        .rebundleDmg app_bundle_path dmg_path,
        .signFile dmg_path .dmg,
        .notarizeFile dmg_path ] :=
  ⟨by decide, (C1_sign_notarize_rebundle_order none okAll fullFS).2 (by decide)⟩

/-- The trace of a run is a sublist of the program. -/
theorem exec_trace_sublist (ok : Instr → Bool) (l : List Instr) (fs : FS) :
    (exec ok l fs).trace.Sublist l := by
  induction l generalizing fs with
  | nil => simp [exec]
  | cons i rest ih =>
    cases he : execErr ok fs i with
    | none =>
      rw [exec_cons_none ok i rest fs he]
      exact (ih (applyInstr i fs)).cons₂ i
    | some e =>
      rw [exec_cons_some ok i rest fs e he]
      simp

/-- A program containing an instruction that raises on every file system
cannot finish without error. -/
theorem exec_error_isSome_of_mem (ok : Instr → Bool) (l : List Instr) (fs : FS)
    (i : Instr) (hmem : i ∈ l) (hfail : ∀ fs, (execErr ok fs i).isSome = true) :
    (exec ok l fs).error.isSome = true := by
  induction l generalizing fs with
  | nil => cases hmem
  | cons j rest ih =>
    cases he : execErr ok fs j with
    | none =>
      rw [exec_cons_none ok j rest fs he]
      rcases List.mem_cons.mp hmem with rfl | hmem2
      · have hx := hfail fs
        rw [he] at hx
        cases hx
      · simpa using ih (applyInstr j fs) hmem2
    | some e =>
      rw [exec_cons_some ok j rest fs e he]
      rfl

/-- C3 counterexample: at the concrete configuration (macOS, no signing,
no features, no bucket), the Test Gate instruction occurs strictly
before the first Compilation Driver invocation — not after it — and a
run whose test command fails still leaves the two web asset trees in the
output staging directory, so an artifact was produced there before the
gate. -/
theorem C3_counterexample_gate_order :
    ((.runCmd (cargo_test_cmd none)) ∈ pipeline_instrs .darwin false none none ∧
     (.runCmd (cargo_build_cmd "cw_cli" darwinTargets none)) ∈ pipeline_instrs .darwin false none none ∧
     (pipeline_instrs .darwin false none none).indexOf (.runCmd (cargo_test_cmd none)) <
       (pipeline_instrs .darwin false none none).indexOf
         (.runCmd (cargo_build_cmd "cw_cli" darwinTargets none))) ∧
    ((exec (fun i => if i = .runCmd (cargo_test_cmd none) then false else true)
        (pipeline_instrs .darwin false none none) fullFS).error =
      some "external command failed" ∧
     (exec (fun i => if i = .runCmd (cargo_test_cmd none) then false else true)
        (pipeline_instrs .darwin false none none) fullFS).fs "build/dashboard" = some "input" ∧
     (exec (fun i => if i = .runCmd (cargo_test_cmd none) then false else true)
        (pipeline_instrs .darwin false none none) fullFS).fs "build/autocomplete" = some "input") := by
  decide

/-- C3 amended: for every configuration, the Test Gate instruction
occurs before the Compilation Driver invocations (in that order as a
sublist), and a run whose test command fails aborts: its trace contains
no cargo build, no signing, no checksum and no upload instruction (the
staging-directory creation and the Asset Bundle Fetcher have already
run or been attempted). -/
theorem C3_amended_gate_aborts (signing : Bool) (features : Option (List String))
    (bucket : Option String) (ok : Instr → Bool) (fs0 : FS)
    (hfail : ok (.runCmd (cargo_test_cmd features)) = false) :
    [.runCmd (cargo_test_cmd features),
     .runCmd (cargo_build_cmd "cw_cli" darwinTargets features)].Sublist
      (pipeline_instrs .darwin signing features bucket) ∧
    (exec ok (pipeline_instrs .darwin signing features bucket) fs0).error.isSome = true ∧
    (∀ pkg ts fz, .runCmd (cargo_build_cmd pkg ts fz) ∉
      (exec ok (pipeline_instrs .darwin signing features bucket) fs0).trace) ∧
    (∀ p k, Instr.signFile p k ∉
      (exec ok (pipeline_instrs .darwin signing features bucket) fs0).trace) ∧
    (∀ p, Instr.genSha p ∉
      (exec ok (pipeline_instrs .darwin signing features bucket) fs0).trace) ∧
    (∀ p b, .runCmd (aws_cp_cmd p b) ∉
      (exec ok (pipeline_instrs .darwin signing features bucket) fs0).trace) := by
  have hsplit : pipeline_instrs .darwin signing features bucket =
      ([.mkdirP "build"] ++ build_npm_packages ++ run_cargo_tests features) ++
      (build_cargo_bin_instrs .darwin "cw_cli" (some "cw") features ++
       build_cargo_bin_instrs .darwin "figterm" (some "cwterm") features ++
       (build_desktop_app signing features ++ [.genSha dmg_path] ++
        darwin_upload_instrs bucket)) := by
    simp [pipeline_instrs]
  have hmemP : (.runCmd (cargo_test_cmd features)) ∈
      ([.mkdirP "build"] ++ build_npm_packages ++ run_cargo_tests features) := by
    simp [run_cargo_tests]
  have hIfail : ∀ fs, (execErr ok fs (.runCmd (cargo_test_cmd features))).isSome = true := by
    intro fs
    simp [execErr, hfail]
  have herrP : (exec ok ([.mkdirP "build"] ++ build_npm_packages ++ run_cargo_tests features)
      fs0).error.isSome = true :=
    exec_error_isSome_of_mem ok _ fs0 _ hmemP hIfail
  obtain ⟨e, he⟩ := Option.isSome_iff_exists.mp herrP
  have hrun : exec ok (pipeline_instrs .darwin signing features bucket) fs0 =
      exec ok ([.mkdirP "build"] ++ build_npm_packages ++ run_cargo_tests features) fs0 := by
    rw [hsplit]
    exact exec_append_of_error ok _ _ fs0 e he
  have htr : (exec ok (pipeline_instrs .darwin signing features bucket) fs0).trace.Sublist
      ([.mkdirP "build"] ++ build_npm_packages ++ run_cargo_tests features) := by
    rw [hrun]
    exact exec_trace_sublist ok _ fs0
  refine ⟨?_, by rw [hrun]; exact herrP, ?_, ?_, ?_, ?_⟩
  · rw [hsplit]
    have h1 : [.runCmd (cargo_test_cmd features)].Sublist
        ([.mkdirP "build"] ++ build_npm_packages ++ run_cargo_tests features) := by
      simp only [run_cargo_tests]
      exact List.sublist_append_right _ _
    have h2 : [.runCmd (cargo_build_cmd "cw_cli" darwinTargets features)].Sublist
        (build_cargo_bin_instrs .darwin "cw_cli" (some "cw") features ++
         build_cargo_bin_instrs .darwin "figterm" (some "cwterm") features ++
         (build_desktop_app signing features ++ [.genSha dmg_path] ++
          darwin_upload_instrs bucket)) := by
      simp only [build_cargo_bin_instrs]
      exact ((List.cons_sublist_cons.mpr (List.nil_sublist _)).trans
        (List.sublist_append_left _ _)).trans (List.sublist_append_left _ _)
    exact h1.append h2
  · intro pkg ts fz hmem
    have := htr.subset hmem
    simp [build_npm_packages, run_cargo_tests, cargo_build_cmd, cargo_test_cmd] at this
  · intro p k hmem
    have := htr.subset hmem
    simp [build_npm_packages, run_cargo_tests] at this
  · intro p hmem
    have := htr.subset hmem
    simp [build_npm_packages, run_cargo_tests] at this
  · intro p b hmem
    have := htr.subset hmem
    simp [build_npm_packages, run_cargo_tests, aws_cp_cmd, cargo_test_cmd] at this

/-- Witness for C3 amended at a concrete failing test gate. -/
theorem C3_amended_gate_aborts_witness :
    (fun i => if i = Instr.runCmd (cargo_test_cmd none) then false else true)
        (.runCmd (cargo_test_cmd none)) = false ∧
    (exec (fun i => if i = Instr.runCmd (cargo_test_cmd none) then false else true)
      (pipeline_instrs .darwin false none none) emptyFS).error.isSome = true :=
  ⟨by decide,
   (C3_amended_gate_aborts false none none
     (fun i => if i = Instr.runCmd (cargo_test_cmd none) then false else true)
     emptyFS (by decide)).2.1⟩

/-- C2 counterexample: there is no try/finally in `build_desktop_app`,
so when the packaging tool (`cargo-tauri`) raises, the manifest and the
packaging config are still on disk at stage exit; when the disk-image
tool (`appdmg`) raises, the spec file is still on disk. -/
theorem C2_counterexample_transient_leak :
    ((exec (fun i => if i = .runCmd (cargo_tauri_cmd none) then false else true)
        (build_desktop_app false none) fullFS).error = some "external command failed" ∧
     (exec (fun i => if i = .runCmd (cargo_tauri_cmd none) then false else true)
        (build_desktop_app false none) fullFS).fs manifest_path = some manifest_content ∧
     (exec (fun i => if i = .runCmd (cargo_tauri_cmd none) then false else true)
        (build_desktop_app false none) fullFS).fs tauri_config_path = some tauri_config_content) ∧
    ((exec (fun i => if i = .runCmd appdmg_cmd then false else true)
        (build_desktop_app false none) fullFS).error = some "external command failed" ∧
     (exec (fun i => if i = .runCmd appdmg_cmd then false else true)
        (build_desktop_app false none) fullFS).fs dmg_spec_path = some dmg_spec_content) := by
  decide

/-- After the manifest/config segment of `build_desktop_app` (the two
`cargo metadata` calls, the two transient writes, the `cargo-tauri` call
and the two unlinks), none of the three transient files exists, on every
exit path of the segment, provided `cargo-tauri` itself succeeds. -/
theorem exec_manifest_segment (ok : Instr → Bool) (features : Option (List String))
    (fs1 : FS) (hm : fs1 manifest_path = none) (hc : fs1 tauri_config_path = none)
    (hs : fs1 dmg_spec_path = none)
    (htauri : ok (.runCmd (cargo_tauri_cmd features)) = true) :
    (exec ok [ .runCmd cargo_metadata_cmd, .runCmd cargo_metadata_cmd,
        .writeFile manifest_path manifest_content,
        .writeFile tauri_config_path tauri_config_content,
        .runCmd (cargo_tauri_cmd features),
        .unlink manifest_path, .unlink tauri_config_path ] fs1).fs manifest_path = none ∧
    (exec ok [ .runCmd cargo_metadata_cmd, .runCmd cargo_metadata_cmd,
        .writeFile manifest_path manifest_content,
        .writeFile tauri_config_path tauri_config_content,
        .runCmd (cargo_tauri_cmd features),
        .unlink manifest_path, .unlink tauri_config_path ] fs1).fs tauri_config_path = none ∧
    (exec ok [ .runCmd cargo_metadata_cmd, .runCmd cargo_metadata_cmd,
        .writeFile manifest_path manifest_content,
        .writeFile tauri_config_path tauri_config_content,
        .runCmd (cargo_tauri_cmd features),
        .unlink manifest_path, .unlink tauri_config_path ] fs1).fs dmg_spec_path = none := by
  have d1 : manifest_path ≠ tauri_config_path := by decide
  have d2 : dmg_spec_path ≠ manifest_path := by decide
  have d3 : dmg_spec_path ≠ tauri_config_path := by decide
  cases h1 : ok (.runCmd cargo_metadata_cmd) with
  | false =>
    simp only [exec, execErr, h1, Bool.false_eq_true, if_false]
    exact ⟨hm, hc, hs⟩
  | true =>
    simp only [exec, execErr, h1, htauri, if_true]
    refine ⟨?_, ?_, ?_⟩ <;>
      simp [applyInstr, FS.write, FS.remove, d1, d2, d3, hm, hc, hs]

/-- After the dmg-spec segment (write the spec, remove a stale image,
run `appdmg`, unlink the spec), the spec file is gone and the other two
transient paths are untouched; the segment itself cannot abort when
`appdmg` succeeds. -/
theorem exec_spec_segment (ok : Instr → Bool) (fs3 : FS)
    (happdmg : ok (.runCmd appdmg_cmd) = true) :
    (exec ok [ .writeFile dmg_spec_path dmg_spec_content, .unlink dmg_path,
        .runCmd appdmg_cmd, .unlink dmg_spec_path ] fs3).fs manifest_path = fs3 manifest_path ∧
    (exec ok [ .writeFile dmg_spec_path dmg_spec_content, .unlink dmg_path,
        .runCmd appdmg_cmd, .unlink dmg_spec_path ] fs3).fs tauri_config_path = fs3 tauri_config_path ∧
    (exec ok [ .writeFile dmg_spec_path dmg_spec_content, .unlink dmg_path,
        .runCmd appdmg_cmd, .unlink dmg_spec_path ] fs3).fs dmg_spec_path = none ∧
    (exec ok [ .writeFile dmg_spec_path dmg_spec_content, .unlink dmg_path,
        .runCmd appdmg_cmd, .unlink dmg_spec_path ] fs3).error = none := by
  have d2 : manifest_path ≠ dmg_spec_path := by decide
  have d3 : tauri_config_path ≠ dmg_spec_path := by decide
  have d4 : manifest_path ≠ dmg_path := by decide
  have d5 : tauri_config_path ≠ dmg_path := by decide
  simp only [exec, execErr, happdmg, if_true]
  refine ⟨?_, ?_, ?_, ?_⟩ <;>
    simp [applyInstr, FS.write, FS.remove, d2, d3, d4, d5]

/-- C2 amended: cleanup of the transient files is guaranteed on the
success path, and on a failing run only when the failure is not the very
external invocation a transient file was written for: provided the
packaging tool and the disk-image tool succeed, every exit path of
`build_desktop_app` (including aborts in the ime build, the bundle
copies, the metadata patch, the theme clone or the signing stage) leaves
none of the manifest, the packaging config and the dmg spec on disk
(assuming, as for a fresh checkout, that none pre-existed). -/
theorem C2_amended_cleanup (signing : Bool) (features : Option (List String))
    (ok : Instr → Bool) (fs0 : FS)
    (hm0 : fs0 manifest_path = none) (hc0 : fs0 tauri_config_path = none)
    (hs0 : fs0 dmg_spec_path = none)
    (htauri : ok (.runCmd (cargo_tauri_cmd features)) = true)
    (happdmg : ok (.runCmd appdmg_cmd) = true) :
    (exec ok (build_desktop_app signing features) fs0).fs manifest_path = none ∧
    (exec ok (build_desktop_app signing features) fs0).fs tauri_config_path = none ∧
    (exec ok (build_desktop_app signing features) fs0).fs dmg_spec_path = none := by
  have hAm : ∀ i ∈ build_macos_ime signing, touches i manifest_path = false := by
    cases signing <;> decide
  have hAc : ∀ i ∈ build_macos_ime signing, touches i tauri_config_path = false := by
    cases signing <;> decide
  have hAs : ∀ i ∈ build_macos_ime signing, touches i dmg_spec_path = false := by
    cases signing <;> decide
  have hBm : ∀ i ∈ [ Instr.rmTree app_bundle_path,
      Instr.copyTree "target/universal-apple-darwin/release/bundle/macos/codewhisperer_desktop.app"
        app_bundle_path,
      Instr.runCmd ["defaults", "write", info_plist_path, "CFBundleDisplayName", "CodeWhisperer"],
      Instr.runCmd ["defaults", "write", info_plist_path, "CFBundleName", "CodeWhisperer"],
      Instr.runCmd ["defaults", "write", info_plist_path, "LSUIElement", "-bool", "TRUE"],
      Instr.runCmd ["plutil", "-insert", "CFBundleURLTypes", "-xml", url_types_xml, info_plist_path],
      Instr.mkdirP (app_bundle_path ++ "/Contents/Helpers"),
      Instr.copyTree ime_app_path (app_bundle_path ++ "/Contents/Helpers/CodeWhispererInputMethod.app"),
      Instr.rmTree "build/themes",
      Instr.runCmd ["git", "clone", "https://github.com/withfig/themes.git", "build/themes"],
      Instr.copyTree "build/themes/themes" (app_bundle_path ++ "/Contents/Resources/themes"),
      Instr.copyTree "build/dashboard" (app_bundle_path ++ "/Contents/Resources/dashboard"),
      Instr.copyTree "build/autocomplete" (app_bundle_path ++ "/Contents/Resources/autocomplete") ],
      touches i manifest_path = false ∧ touches i tauri_config_path = false ∧
      touches i dmg_spec_path = false := by decide
  have hTm : ∀ i ∈ (if signing then sign_and_rebundle_macos app_bundle_path dmg_path else []),
      touches i manifest_path = false ∧ touches i tauri_config_path = false ∧
      touches i dmg_spec_path = false := by
    cases signing <;> decide
  have hsplit : build_desktop_app signing features =
      build_macos_ime signing ++
      ([ .runCmd cargo_metadata_cmd, .runCmd cargo_metadata_cmd,
         .writeFile manifest_path manifest_content,
         .writeFile tauri_config_path tauri_config_content,
         .runCmd (cargo_tauri_cmd features),
         .unlink manifest_path, .unlink tauri_config_path ] ++
       ([ Instr.rmTree app_bundle_path,
          Instr.copyTree "target/universal-apple-darwin/release/bundle/macos/codewhisperer_desktop.app"
            app_bundle_path,
          Instr.runCmd ["defaults", "write", info_plist_path, "CFBundleDisplayName", "CodeWhisperer"],
          Instr.runCmd ["defaults", "write", info_plist_path, "CFBundleName", "CodeWhisperer"],
          Instr.runCmd ["defaults", "write", info_plist_path, "LSUIElement", "-bool", "TRUE"],
          Instr.runCmd ["plutil", "-insert", "CFBundleURLTypes", "-xml", url_types_xml, info_plist_path],
          Instr.mkdirP (app_bundle_path ++ "/Contents/Helpers"),
          Instr.copyTree ime_app_path (app_bundle_path ++ "/Contents/Helpers/CodeWhispererInputMethod.app"),
          Instr.rmTree "build/themes",
          Instr.runCmd ["git", "clone", "https://github.com/withfig/themes.git", "build/themes"],
          Instr.copyTree "build/themes/themes" (app_bundle_path ++ "/Contents/Resources/themes"),
          Instr.copyTree "build/dashboard" (app_bundle_path ++ "/Contents/Resources/dashboard"),
          Instr.copyTree "build/autocomplete" (app_bundle_path ++ "/Contents/Resources/autocomplete") ] ++
        ([ .writeFile dmg_spec_path dmg_spec_content, .unlink dmg_path,
           .runCmd appdmg_cmd, .unlink dmg_spec_path ] ++
         (if signing then sign_and_rebundle_macos app_bundle_path dmg_path else [])))) := by
    simp [build_desktop_app, List.cons_append, List.nil_append, List.append_assoc]
  rw [hsplit]
  cases herrA : (exec ok (build_macos_ime signing) fs0).error with
  | some e =>
    rw [exec_append_of_error ok _ _ fs0 e herrA]
    exact ⟨(exec_untouched ok _ _ fs0 hAm).trans hm0,
      (exec_untouched ok _ _ fs0 hAc).trans hc0,
      (exec_untouched ok _ _ fs0 hAs).trans hs0⟩
  | none =>
    rw [exec_append_of_no_error ok _ _ fs0 herrA]
    have hm1 := (exec_untouched ok _ manifest_path fs0 hAm).trans hm0
    have hc1 := (exec_untouched ok _ tauri_config_path fs0 hAc).trans hc0
    have hs1 := (exec_untouched ok _ dmg_spec_path fs0 hAs).trans hs0
    obtain ⟨hm2, hc2, hs2⟩ := exec_manifest_segment ok features _ hm1 hc1 hs1 htauri
    cases herrM : (exec ok [ Instr.runCmd cargo_metadata_cmd, Instr.runCmd cargo_metadata_cmd,
        Instr.writeFile manifest_path manifest_content,
        Instr.writeFile tauri_config_path tauri_config_content,
        Instr.runCmd (cargo_tauri_cmd features),
        Instr.unlink manifest_path, Instr.unlink tauri_config_path ]
        (exec ok (build_macos_ime signing) fs0).fs).error with
    | some e =>
      rw [exec_append_of_error ok _ _ _ e herrM]
      exact ⟨hm2, hc2, hs2⟩
    | none =>
      rw [exec_append_of_no_error ok _ _ _ herrM]
      cases herrB : (exec ok [ Instr.rmTree app_bundle_path,
          Instr.copyTree "target/universal-apple-darwin/release/bundle/macos/codewhisperer_desktop.app"
            app_bundle_path,
          Instr.runCmd ["defaults", "write", info_plist_path, "CFBundleDisplayName", "CodeWhisperer"],
          Instr.runCmd ["defaults", "write", info_plist_path, "CFBundleName", "CodeWhisperer"],
          Instr.runCmd ["defaults", "write", info_plist_path, "LSUIElement", "-bool", "TRUE"],
          Instr.runCmd ["plutil", "-insert", "CFBundleURLTypes", "-xml", url_types_xml, info_plist_path],
          Instr.mkdirP (app_bundle_path ++ "/Contents/Helpers"),
          Instr.copyTree ime_app_path (app_bundle_path ++ "/Contents/Helpers/CodeWhispererInputMethod.app"),
          Instr.rmTree "build/themes",
          Instr.runCmd ["git", "clone", "https://github.com/withfig/themes.git", "build/themes"],
          Instr.copyTree "build/themes/themes" (app_bundle_path ++ "/Contents/Resources/themes"),
          Instr.copyTree "build/dashboard" (app_bundle_path ++ "/Contents/Resources/dashboard"),
          Instr.copyTree "build/autocomplete" (app_bundle_path ++ "/Contents/Resources/autocomplete") ]
          (exec ok [ Instr.runCmd cargo_metadata_cmd, Instr.runCmd cargo_metadata_cmd,
            Instr.writeFile manifest_path manifest_content,
            Instr.writeFile tauri_config_path tauri_config_content,
            Instr.runCmd (cargo_tauri_cmd features),
            Instr.unlink manifest_path, Instr.unlink tauri_config_path ]
            (exec ok (build_macos_ime signing) fs0).fs).fs).error with
      | some e =>
        rw [exec_append_of_error ok _ _ _ e herrB]
        exact ⟨(exec_untouched ok _ _ _ (fun i hi => (hBm i hi).1)).trans hm2,
          (exec_untouched ok _ _ _ (fun i hi => (hBm i hi).2.1)).trans hc2,
          (exec_untouched ok _ _ _ (fun i hi => (hBm i hi).2.2)).trans hs2⟩
      | none =>
        rw [exec_append_of_no_error ok _ _ _ herrB]
        have hm3 := (exec_untouched ok _ manifest_path _ (fun i hi => (hBm i hi).1)).trans hm2
        have hc3 := (exec_untouched ok _ tauri_config_path _ (fun i hi => (hBm i hi).2.1)).trans hc2
        obtain ⟨hm4, hc4, hs4, herrS⟩ := exec_spec_segment ok _ happdmg
        rw [exec_append_of_no_error ok _ _ _ herrS]
        exact ⟨(exec_untouched ok _ _ _ (fun i hi => (hTm i hi).1)).trans (hm4.trans hm3),
          (exec_untouched ok _ _ _ (fun i hi => (hTm i hi).2.1)).trans (hc4.trans hc3),
          (exec_untouched ok _ _ _ (fun i hi => (hTm i hi).2.2)).trans hs4⟩

/-- Witness for C2 amended at a concrete successful run from a clean
file system. -/
theorem C2_amended_cleanup_witness :
    (exec okAll (build_desktop_app true none)
      (fun q => if q = manifest_path then none
                else if q = tauri_config_path then none
                else if q = dmg_spec_path then none else some "input")).fs manifest_path = none ∧
    (exec okAll (build_desktop_app true none)
      (fun q => if q = manifest_path then none
                else if q = tauri_config_path then none
                else if q = dmg_spec_path then none else some "input")).fs tauri_config_path = none ∧
    (exec okAll (build_desktop_app true none)
      (fun q => if q = manifest_path then none
                else if q = tauri_config_path then none
                else if q = dmg_spec_path then none else some "input")).fs dmg_spec_path = none :=
  C2_amended_cleanup true none okAll _
    (by decide) (by decide) (by decide) (by decide) (by decide)

/-- C9 counterexample: the staging-directory preparation at pipeline
start is `OUTDIR.mkdir(parents=True, exist_ok=True)` — it creates the
directory but clears nothing, so a file left from a previous run is
still present when the first stage begins, and indeed survives the
whole run. -/
theorem C9_counterexample_staging_not_cleared :
    ((pipeline_instrs .darwin false none none).take 1 = [.mkdirP "build"]) ∧
    ((exec okAll ((pipeline_instrs .darwin false none none).take 1)
        (fun q => if q = "build/stale-from-previous-run" then some "old" else none)).fs
        "build/stale-from-previous-run" = some "old") ∧
    ((exec okAll (pipeline_instrs .darwin false none none)
        (fun q => if q = "build/stale-from-previous-run" then some "old" else some "input")).fs
        "build/stale-from-previous-run" = some "old") := by
  decide

/-- C9 amended: at pipeline start the staging directory is created if
missing but not cleared (`exist_ok=True`, no removal), and any
pre-existing file at a path no pipeline instruction touches is still
present at the end of every run. -/
theorem C9_amended_staging_mkdir_only (signing : Bool) (features : Option (List String))
    (bucket : Option String) (ok : Instr → Bool) (fs0 : FS) (p : String)
    (hp : ∀ i ∈ pipeline_instrs .darwin signing features bucket, touches i p = false) :
    (pipeline_instrs .darwin signing features bucket).take 1 = [.mkdirP "build"] ∧
    (∀ fs : FS, applyInstr (.mkdirP "build") fs = fs) ∧
    (exec ok (pipeline_instrs .darwin signing features bucket) fs0).fs p = fs0 p := by
  refine ⟨by simp [pipeline_instrs], fun fs => rfl, exec_untouched ok _ p fs0 hp⟩

/-- Witness for C9 amended: a stale file at an untouched path survives
a concrete full run. -/
theorem C9_amended_staging_mkdir_only_witness :
    (exec okAll (pipeline_instrs .darwin false none none)
      (fun q => if q = "build/stale-from-previous-run" then some "old" else none)).fs
      "build/stale-from-previous-run" = some "old" := by
  have h := C9_amended_staging_mkdir_only false none none okAll
    (fun q => if q = "build/stale-from-previous-run" then some "old" else none)
    "build/stale-from-previous-run" (by decide)
  rw [h.2.2]
  decide

/-- C6: the Linux filesystem tree builder.  With the headless flag the
program is exactly the binary-directory setup, the two binaries and the
headless overlay — no icon copy, no desktop overlay, no desktop binary;
without it the program is exactly the icon copies at every declared
resolution followed by the same core and then the desktop overlay and
the desktop binary.  The headless overlay and the cli and terminal
binaries are present in both cases. -/
theorem C6_linux_tree_headless_conditional (cwterm cw_cli desktop : String) :
    linux_bundle cwterm cw_cli desktop true =
      [ .mkdirP "build/usr/bin", .copy cw_cli "build/usr/bin", .copy cwterm "build/usr/bin",
        .copyTree "bundle/linux/headless" "build" ] ∧
    linux_bundle cwterm cw_cli desktop false =
      icon_resolutions.map icon_instr ++
      [ .mkdirP "build/usr/bin", .copy cw_cli "build/usr/bin", .copy cwterm "build/usr/bin",
        .copyTree "bundle/linux/headless" "build",
        .copyTree "bundle/linux/desktop" "build", .copy desktop "build/usr/bin" ] ∧
    (desktop ≠ cw_cli → desktop ≠ cwterm →
      Instr.copy desktop "build/usr/bin" ∉ linux_bundle cwterm cw_cli desktop true) ∧
    (Instr.copyTree "bundle/linux/desktop" "build" ∉ linux_bundle cwterm cw_cli desktop true) ∧
    (∀ res ∈ icon_resolutions, icon_instr res ∉ linux_bundle cwterm cw_cli desktop true) ∧
    (∀ res ∈ icon_resolutions, icon_instr res ∈ linux_bundle cwterm cw_cli desktop false) ∧
    (Instr.copyTree "bundle/linux/headless" "build" ∈ linux_bundle cwterm cw_cli desktop true) ∧
    (Instr.copyTree "bundle/linux/headless" "build" ∈ linux_bundle cwterm cw_cli desktop false) ∧
    (Instr.copy cw_cli "build/usr/bin" ∈ linux_bundle cwterm cw_cli desktop true) ∧
    (Instr.copy cw_cli "build/usr/bin" ∈ linux_bundle cwterm cw_cli desktop false) ∧
    (Instr.copy cwterm "build/usr/bin" ∈ linux_bundle cwterm cw_cli desktop true) ∧
    (Instr.copy cwterm "build/usr/bin" ∈ linux_bundle cwterm cw_cli desktop false) := by
  refine ⟨by simp [linux_bundle], by simp [linux_bundle], ?_, ?_, ?_, ?_, ?_, ?_, ?_, ?_, ?_, ?_⟩
  · intro h1 h2 hmem
    simp [linux_bundle, h1, h2] at hmem
  · intro hmem
    simp [linux_bundle] at hmem
  · intro res hres hmem
    simp only [icon_resolutions, List.mem_cons, List.not_mem_nil, or_false] at hres
    have hlist : linux_bundle cwterm cw_cli desktop true =
        [ .mkdirP "build/usr/bin", .copy cw_cli "build/usr/bin", .copy cwterm "build/usr/bin",
          .copyTree "bundle/linux/headless" "build" ] := by simp [linux_bundle]
    rw [hlist] at hmem
    simp only [List.mem_cons, List.not_mem_nil, or_false] at hmem
    rcases hres with rfl | rfl | rfl | rfl | rfl | rfl | rfl | rfl | rfl <;>
      rcases hmem with h | h | h | h <;>
      first
      | exact absurd h (by decide)
      | (injection h with h1 h2; exact absurd h2 (by decide))
  · intro res hres
    simp only [linux_bundle, if_false, List.mem_append]
    exact Or.inl (Or.inl (List.mem_map_of_mem icon_instr hres))
  · simp [linux_bundle]
  · simp [linux_bundle]
  · simp [linux_bundle]
  · simp [linux_bundle]
  · simp [linux_bundle]
  · simp [linux_bundle]

/-- Witness for C6 at concrete distinct binary paths. -/
theorem C6_linux_tree_headless_conditional_witness :
    Instr.copy "build/codewhisperer_desktop" "build/usr/bin" ∉
      linux_bundle "build/cwterm" "build/cw" "build/codewhisperer_desktop" true :=
  (C6_linux_tree_headless_conditional "build/cwterm" "build/cw"
    "build/codewhisperer_desktop").2.2.1 (by decide) (by decide)

/-- C8 counterexample: the patch applies once, but re-applying it to the
already-patched metadata fails — `plutil -insert` exits non-zero when
`CFBundleURLTypes` already exists — instead of succeeding with the same
final values. -/
theorem C8_counterexample_patch_not_idempotent :
    ((patch_info_plist (fun _ => none)).toOption.isSome = true) ∧
    ((patch_info_plist (fun _ => none) >>= patch_info_plist) =
      .error "CFBundleURLTypes already exists") :=
  ⟨rfl, rfl⟩

/-- C8 amended: the three `defaults write` edits are idempotent (a
second application changes nothing), but the URL-scheme step uses
`plutil -insert`, which fails when the key already exists: re-applying
the whole patch to an already-patched bundle raises instead of leaving
the same final values. -/
theorem C8_amended_patch_second_application_fails (p : Plist) :
    (∀ q, defaults_patch (defaults_patch p) q = defaults_patch p q) ∧
    (∀ p1, patch_info_plist p = .ok p1 →
      patch_info_plist p1 = .error "CFBundleURLTypes already exists") := by
  constructor
  · intro q
    simp only [defaults_patch, defaults_write]
    split_ifs <;> rfl
  · intro p1 h
    have d1 : ("CFBundleURLTypes" : String) ≠ "LSUIElement" := by decide
    have d2 : ("CFBundleURLTypes" : String) ≠ "CFBundleName" := by decide
    have d3 : ("CFBundleURLTypes" : String) ≠ "CFBundleDisplayName" := by decide
    simp only [patch_info_plist, plutil_insert] at h ⊢
    cases hk : defaults_patch p "CFBundleURLTypes" with
    | some v => rw [hk] at h; cases h
    | none =>
      rw [hk] at h
      have hp1 : p1 = fun q => if q = "CFBundleURLTypes" then some url_types_xml
          else defaults_patch p q := by
        cases h
        rfl
      subst hp1
      have hval : defaults_patch (fun q => if q = "CFBundleURLTypes" then some url_types_xml
          else defaults_patch p q) "CFBundleURLTypes" = some url_types_xml := by
        simp [defaults_patch, defaults_write, d1, d2, d3]
      rw [hval]
      rfl

/-- Witness for C8 amended at the empty metadata dictionary. -/
theorem C8_amended_patch_second_application_fails_witness :
    patch_info_plist (fun q => if q = "CFBundleURLTypes" then some url_types_xml
        else defaults_patch (fun _ => none) q) =
      .error "CFBundleURLTypes already exists" :=
  (C8_amended_patch_second_application_fails (fun _ => none)).2
    (fun q => if q = "CFBundleURLTypes" then some url_types_xml
        else defaults_patch (fun _ => none) q) rfl

/-- Lemma: `takeWhile` consumes exactly a block of satisfying elements when the
next element fails the predicate. -/
theorem list_takeWhile_append_all {α : Type} (p : α → Bool) (l r : List α) (b : α)
    (hl : ∀ a ∈ l, p a = true) (hb : p b = false) :
    (l ++ b :: r).takeWhile p = l := by
  induction l with
  | nil => simp [List.takeWhile, hb]
  | cons a as ih =>
    have ha := hl a (List.mem_cons_self a as)
    simp [List.takeWhile, ha, ih (fun x hx => hl x (List.mem_cons_of_mem a hx))]

/-- No upload instruction appears anywhere in a macOS pipeline run when
no output bucket is configured. -/
theorem no_aws_upload_without_bucket (s : Bool) (f : Option (List String)) (p b : String) :
    Instr.runCmd (aws_cp_cmd p b) ∉ pipeline_instrs .darwin s f none := by
  intro hmem
  cases s <;>
    simp [pipeline_instrs, build_npm_packages, run_cargo_tests, build_cargo_bin_instrs,
      build_desktop_app, build_macos_ime, sign_and_rebundle_macos, darwin_upload_instrs,
      aws_cp_cmd, cargo_build_cmd, lipo_cmd, cargo_tauri_cmd, cargo_metadata_cmd,
      cargo_test_cmd, appdmg_cmd, constituent] at hmem

/-- C5 counterexample: the Linux publisher branch (lines 467-473 of
`build.py`) uploads the final artifacts `cw` and `cwterm` to the
configured staging location with no digest ever computed — the pipeline
program contains no checksum instruction at all — and no `.sha256`
sidecar uploaded, so the Publisher contract does not hold for each
final artifact. -/
theorem C5_counterexample_linux_no_sidecar :
    (Instr.runCmd (aws_cp_cmd "build/cw" "bkt") ∈
      pipeline_instrs .linux false none (some "bkt")) ∧
    (Instr.runCmd (aws_cp_cmd "build/cwterm" "bkt") ∈
      pipeline_instrs .linux false none (some "bkt")) ∧
    ((pipeline_instrs .linux false none (some "bkt")).all
      (fun i => match i with
        | .genSha _ => false
        | _ => true) = true) ∧
    (Instr.runCmd (aws_cp_cmd "build/cw.sha256" "bkt") ∉
      pipeline_instrs .linux false none (some "bkt")) ∧
    (Instr.runCmd (aws_cp_cmd "build/cwterm.sha256" "bkt") ∉
      pipeline_instrs .linux false none (some "bkt")) := by
  decide

/-- C5 amended: on macOS the Publisher computes the final artifact's
digest (first field of the `shasum -a 256` stdout, which is the digest
itself whenever the digest contains no space, as a hex digest does),
writes it to a sidecar named by appending `.sha256` to the artifact's
name without touching any other path, and the pipeline uploads the disk
image and the sidecar exactly when an output staging bucket is
configured; on Linux the final artifacts (the cli and terminal
binaries) are uploaded directly when a bucket is configured, with no
digest computed and no sidecar uploaded. -/
theorem C5_amended_publisher_checksum (sha : String → String) (fs : FS) (path c : String)
    (hfile : fs path = some c)
    (hd : ∀ ch ∈ (sha c).data, ch ≠ ' ') :
    generate_sha sha fs path =
      some (fs.write (path ++ ".sha256") (sha c), path ++ ".sha256") ∧
    (fs.write (path ++ ".sha256") (sha c)) (path ++ ".sha256") = some (sha c) ∧
    (∀ q, q ≠ path ++ ".sha256" → (fs.write (path ++ ".sha256") (sha c)) q = fs q) ∧
    (∀ s f b, [Instr.genSha dmg_path, Instr.runCmd (aws_cp_cmd dmg_path b),
        Instr.runCmd (aws_cp_cmd (dmg_path ++ ".sha256") b)].Sublist
        (pipeline_instrs .darwin s f (some b))) ∧
    (∀ s f p2 b, Instr.runCmd (aws_cp_cmd p2 b) ∉ pipeline_instrs .darwin s f none) ∧
    (∀ s f b, Instr.runCmd (aws_cp_cmd "build/cw" b) ∈ pipeline_instrs .linux s f (some b) ∧
      Instr.runCmd (aws_cp_cmd "build/cwterm" b) ∈ pipeline_instrs .linux s f (some b)) ∧
    (∀ s f b p2, Instr.genSha p2 ∉ pipeline_instrs .linux s f b) ∧
    (∀ s f b, Instr.runCmd (aws_cp_cmd "build/cw.sha256" b) ∉
        pipeline_instrs .linux s f (some b) ∧
      Instr.runCmd (aws_cp_cmd "build/cwterm.sha256" b) ∉
        pipeline_instrs .linux s f (some b)) := by
  have hdata : (sha c ++ "  " ++ path).data = (sha c).data ++ (' ' :: ' ' :: path.data) := by
    rw [String.data_append, String.data_append]
    simp
  have hpred : ∀ a ∈ (sha c).data, (fun ch => !(ch = ' ' : Bool)) a = true := by
    intro a haa
    simp [hd a haa]
  have hsf : split_first (sha c ++ "  " ++ path) = sha c := by
    rw [split_first, hdata,
      list_takeWhile_append_all (fun ch => !(ch = ' ' : Bool)) _ _ _ hpred (by decide)]
  refine ⟨?_, ?_, ?_, ?_, fun s f p2 b => no_aws_upload_without_bucket s f p2 b, ?_, ?_, ?_⟩
  · simp only [generate_sha, hfile, hsf]
  · simp [FS.write]
  · intro q hq
    simp [FS.write, hq]
  · intro s f b
    have hx : pipeline_instrs .darwin s f (some b) =
        ([.mkdirP "build"] ++ build_npm_packages ++ run_cargo_tests f
         ++ build_cargo_bin_instrs .darwin "cw_cli" (some "cw") f
         ++ build_cargo_bin_instrs .darwin "figterm" (some "cwterm") f
         ++ build_desktop_app s f) ++
        [Instr.genSha dmg_path, Instr.runCmd (aws_cp_cmd dmg_path b),
         Instr.runCmd (aws_cp_cmd (dmg_path ++ ".sha256") b)] := by
      simp [pipeline_instrs, darwin_upload_instrs, List.append_assoc]
    rw [hx]
    exact List.sublist_append_right _ _
  · intro s f b
    constructor <;>
      simp [pipeline_instrs, linux_upload_instrs, build_npm_packages, run_cargo_tests,
        build_cargo_bin_instrs]
  · intro s f b p2 hmem
    cases b <;>
      simp [pipeline_instrs, linux_upload_instrs, build_npm_packages, run_cargo_tests,
        build_cargo_bin_instrs] at hmem
  · intro s f b
    constructor <;>
      · intro hmem
        simp [pipeline_instrs, linux_upload_instrs, build_npm_packages, run_cargo_tests,
          build_cargo_bin_instrs, aws_cp_cmd, cargo_build_cmd, cargo_test_cmd,
          constituent] at hmem

/-- Witness for C5 amended at a concrete artifact and digest function. -/
theorem C5_amended_publisher_checksum_witness :
    generate_sha (fun _ => "d41d8cd9") (fun q => if q = "build/CodeWhisperer.dmg" then some "bytes" else none)
        "build/CodeWhisperer.dmg" =
      some (FS.write (fun q => if q = "build/CodeWhisperer.dmg" then some "bytes" else none)
          ("build/CodeWhisperer.dmg" ++ ".sha256") "d41d8cd9",
        "build/CodeWhisperer.dmg" ++ ".sha256") :=
  (C5_amended_publisher_checksum (fun _ => "d41d8cd9")
    (fun q => if q = "build/CodeWhisperer.dmg" then some "bytes" else none)
    "build/CodeWhisperer.dmg" "bytes" (by decide) (by decide)).1

/-- The signing stage's app-bundle signing operation occurs in the
pipeline exactly when the signing flag was supplied. -/
theorem signing_instr_mem_iff (s : Bool) (f : Option (List String)) (b : Option String) :
    (Instr.signFile app_bundle_path .app ∈ pipeline_instrs .darwin s f b) ↔ s = true := by
  cases s <;> cases b <;>
    simp [pipeline_instrs, build_npm_packages, run_cargo_tests, build_cargo_bin_instrs,
      build_desktop_app, build_macos_ime, sign_and_rebundle_macos, darwin_upload_instrs,
      ime_app_path, app_bundle_path, dmg_path]

/-- No signing-client operation at all occurs in the pipeline when no
signing configuration was supplied. -/
theorem no_signing_instrs_without_config (f : Option (List String)) (b : Option String) :
    (∀ p k, Instr.signFile p k ∉ pipeline_instrs .darwin false f b) ∧
    (∀ p, Instr.notarizeFile p ∉ pipeline_instrs .darwin false f b) ∧
    (∀ a d, Instr.rebundleDmg a d ∉ pipeline_instrs .darwin false f b) := by
  refine ⟨fun p k hmem => ?_, fun p hmem => ?_, fun a d hmem => ?_⟩ <;>
    cases b <;>
    simp [pipeline_instrs, build_npm_packages, run_cargo_tests, build_cargo_bin_instrs,
      build_desktop_app, build_macos_ime, darwin_upload_instrs] at hmem

/-- C4 counterexample: a configuration blob that supplies the three
checked keys but omits `aws_account_id` does not disable anything — the
entrypoint raises `KeyError` while building the signing data. -/
theorem C4_counterexample_keyerror :
    parse_signing_data
        [("signing_bucket", "bkt"), ("signing_queue", "q"), ("apple_id_secret", "sec")] =
      .error "KeyError: aws_account_id" ∧
    module_entrypoint .darwin
        [("signing_bucket", "bkt"), ("signing_queue", "q"), ("apple_id_secret", "sec")] =
      .error "KeyError: aws_account_id" :=
  ⟨rfl, rfl⟩

/-- C4 amended: the signing stage runs iff a signing configuration was
constructed, and that happens iff `signing_bucket`, `signing_queue` and
`apple_id_secret` are all supplied; omission of any of these three, of
the gamma toggle or of the output bucket disables the corresponding
stage without error; but when the three checked keys are supplied,
`aws_account_id` and `signing_role_name` become required — their
omission raises `KeyError` instead of disabling signing. -/
theorem C4_amended_optional_config (args : Config) :
    (∀ s f b, (Instr.signFile app_bundle_path .app ∈ pipeline_instrs .darwin s f b) ↔ s = true) ∧
    ((n args "signing_bucket" && n args "signing_queue" && n args "apple_id_secret") = false →
      parse_signing_data args = .ok none ∧
      module_entrypoint .darwin args =
        .ok (pipeline_instrs .darwin false (features_of args) (output_bucket_of args)) ∧
      (∀ p k, Instr.signFile p k ∉
        pipeline_instrs .darwin false (features_of args) (output_bucket_of args))) ∧
    (n args "gamma" = false → features_of args = none) ∧
    (n args "output_bucket" = false → output_bucket_of args = none ∧
      (∀ s f p b, Instr.runCmd (aws_cp_cmd p b) ∉ pipeline_instrs .darwin s f none)) ∧
    ((n args "signing_bucket" && n args "signing_queue" && n args "apple_id_secret") = true →
      (args.lookup "aws_account_id").isSome = true →
      (args.lookup "signing_role_name").isSome = true →
      ∃ sd, parse_signing_data args = .ok (some sd) ∧
        module_entrypoint .darwin args =
          .ok (pipeline_instrs .darwin true (features_of args) (output_bucket_of args))) := by
  refine ⟨signing_instr_mem_iff, ?_, ?_, ?_, ?_⟩
  · intro hfalse
    have hparse : parse_signing_data args = .ok none := by
      simp [parse_signing_data, hfalse, pure, Except.pure]
    exact ⟨hparse, by simp [module_entrypoint, hparse],
      (no_signing_instrs_without_config _ _).1⟩
  · intro h
    simp [features_of, h]
  · intro h
    exact ⟨by simp [output_bucket_of, h], fun s f p b => no_aws_upload_without_bucket s f p b⟩
  · intro htrue ha hr
    simp only [Bool.and_eq_true] at htrue
    obtain ⟨⟨h1, h2⟩, h3⟩ := htrue
    simp only [n] at h1 h2 h3
    obtain ⟨vb, hvb⟩ := Option.isSome_iff_exists.mp h1
    obtain ⟨vq, hvq⟩ := Option.isSome_iff_exists.mp h2
    obtain ⟨vsec, hvsec⟩ := Option.isSome_iff_exists.mp h3
    obtain ⟨va, hva⟩ := Option.isSome_iff_exists.mp ha
    obtain ⟨vr, hvr⟩ := Option.isSome_iff_exists.mp hr
    have hparse : parse_signing_data args =
        .ok (some ⟨vb, va, vsec, vq, vr⟩) := by
      simp [parse_signing_data, n, getItem, hvb, hvq, hvsec, hva, hvr, pure, Except.pure,
        bind, Except.bind]
    exact ⟨_, hparse, by simp [module_entrypoint, hparse]⟩

/-- Witness for C4 amended: the empty blob disables signing without
error; a blob with all five signing keys enables it. -/
theorem C4_amended_optional_config_witness :
    (parse_signing_data [] = .ok none ∧
     module_entrypoint .darwin [] =
       .ok (pipeline_instrs .darwin false (features_of []) (output_bucket_of [])) ∧
     (∀ p k, Instr.signFile p k ∉
       pipeline_instrs .darwin false (features_of []) (output_bucket_of []))) ∧
    (∃ sd, parse_signing_data
        [("signing_bucket", "bkt"), ("signing_queue", "q"), ("apple_id_secret", "sec"),
         ("aws_account_id", "acct"), ("signing_role_name", "role")] = .ok (some sd) ∧
      module_entrypoint .darwin
          [("signing_bucket", "bkt"), ("signing_queue", "q"), ("apple_id_secret", "sec"),
           ("aws_account_id", "acct"), ("signing_role_name", "role")] =
        .ok (pipeline_instrs .darwin true
          (features_of [("signing_bucket", "bkt"), ("signing_queue", "q"),
            ("apple_id_secret", "sec"), ("aws_account_id", "acct"),
            ("signing_role_name", "role")])
          (output_bucket_of [("signing_bucket", "bkt"), ("signing_queue", "q"),
            ("apple_id_secret", "sec"), ("aws_account_id", "acct"),
            ("signing_role_name", "role")]))) :=
  ⟨(C4_amended_optional_config []).2.1 (by decide),
   (C4_amended_optional_config
     [("signing_bucket", "bkt"), ("signing_queue", "q"), ("apple_id_secret", "sec"),
      ("aws_account_id", "acct"), ("signing_role_name", "role")]).2.2.2.2
     (by decide) (by decide) (by decide)⟩
